import Mathlib

/-
Verification development for the ISS proximity-indicator sketch
(`src/main.cpp`).  The sketch periodically fetches the ISS position,
computes a haversine distance to a fixed home coordinate, classifies the
distance into a mode, and drives three LEDs from that mode in a
cooperative non-blocking loop.

Floating-point doubles are modelled as real numbers; the 32-bit unsigned
millisecond arithmetic of `millis()` is modelled as natural numbers
reduced modulo 2^32.
-/

/-- Modulus of the 32-bit unsigned `millis` counter (`unsigned long` on the
ESP8266 target is 32 bits wide). -/
def UINT32_MOD : Nat := 4294967296

/-- Unsigned 32-bit subtraction `a - b` as it happens in C when both
operands are `unsigned long`: the difference modulo 2^32.  This is the
arithmetic used by every `currentMillis - last... >= PERIOD` deadline
test in the sketch. -/
def usub32 (a b : Nat) : Nat :=
  (a % UINT32_MOD + UINT32_MOD - b % UINT32_MOD) % UINT32_MOD

/-- Distance threshold `VISIBLE_RADIUS = 500.0` km from the sketch. -/
def VISIBLE_RADIUS : ℝ := 500

/-- Distance threshold `SLIGHTLY_FAR_RADIUS = 1000.0` km from the sketch. -/
def SLIGHTLY_FAR_RADIUS : ℝ := 1000

/-- Timing constant `CHECK_ISS_INTERVAL = 30000` ms from the sketch. -/
def CHECK_ISS_INTERVAL : Nat := 30000

/-- Timing constant `WIFI_CHECK_INTERVAL = 5000` ms from the sketch. -/
def WIFI_CHECK_INTERVAL : Nat := 5000

/-- Timing constant `BLINK_FAST = 200` ms from the sketch. -/
def BLINK_FAST : Nat := 200

/-- Timing constant `BLINK_MEDIUM = 500` ms from the sketch. -/
def BLINK_MEDIUM : Nat := 500

/-- The four values of the `ledMode` register of the sketch:
`0 = off`, `1 = steady red (far)`, `2 = blinking blue (approaching)`,
`3 = fast blinking green (near)`. -/
inductive Mode where
  | off
  | far
  | approaching
  | near
deriving DecidableEq, Repr

/-- Helper `deg2rad` of the sketch: degrees to radians via `deg * (PI / 180.0)`. -/
noncomputable def deg2rad (deg : ℝ) : ℝ := deg * (Real.pi / 180)

/-- The longitude delta computed inside `haversine` of the sketch.  The
source line is `double dLon = deg2rad(lat2 - lon1);` — it subtracts the
first longitude from the SECOND LATITUDE.  All four coordinates are
parameters so the dependence is explicit. -/
noncomputable def hav_dLon (lat1 lon1 lat2 lon2 : ℝ) : ℝ :=
  deg2rad (lat2 - lon1)

/-- Two-argument arctangent `atan2 y x` as defined by the C math library,
used by the sketch through `atan2(sqrt(a), sqrt(1-a))`. -/
noncomputable def atan2 (y x : ℝ) : ℝ :=
  if 0 < x then Real.arctan (y / x)
  else if x < 0 then
    (if 0 ≤ y then Real.arctan (y / x) + Real.pi
     else Real.arctan (y / x) - Real.pi)
  else
    (if 0 < y then Real.pi / 2
     else if y < 0 then -(Real.pi / 2)
     else 0)

/-- The `haversine` function of the sketch, transcribed line by line,
including the defective `dLon` (see `hav_dLon`).  `R = 6371.0` km. -/
noncomputable def haversine (lat1 lon1 lat2 lon2 : ℝ) : ℝ :=
  let dLat := deg2rad (lat2 - lat1)
  let dLon := hav_dLon lat1 lon1 lat2 lon2
  let l1 := deg2rad lat1
  let l2 := deg2rad lat2
  let a := Real.sin (dLat / 2) * Real.sin (dLat / 2) +
           Real.sin (dLon / 2) * Real.sin (dLon / 2) * Real.cos l1 * Real.cos l2
  let c := 2 * atan2 (Real.sqrt a) (Real.sqrt (1 - a))
  6371 * c

/-- The distance classifier embedded in `checkISSPosition` of the sketch:
`if (dist <= VISIBLE_RADIUS) ledMode = 3; else if (dist <=
SLIGHTLY_FAR_RADIUS) ledMode = 2; else ledMode = 1;`. -/
noncomputable def classify (dist : ℝ) : Mode :=
  if dist ≤ VISIBLE_RADIUS then Mode.near
  else if dist ≤ SLIGHTLY_FAR_RADIUS then Mode.approaching
  else Mode.far

/-- Environment seen by one call of `checkISSPosition`: the WiFi status,
the HTTP status code returned by `http.GET()`, and the result of JSON
parsing (`none` when `deserializeJson` fails, otherwise the
`iss_position` latitude and longitude). -/
structure Env where
  wifiConnected : Bool
  httpCode : Int
  parsed : Option (ℝ × ℝ)

/-- One call of `checkISSPosition` of the sketch, as a function from the
current `ledMode` to the new one.  `myLat`, `myLon` are the compile-time
home coordinates `MY_LAT`, `MY_LON` from `credentials.h`.  Every error
branch (`WiFi not connected`, non-200 HTTP code, JSON parse failure)
falls through without touching `ledMode`. -/
noncomputable def checkISSPosition (env : Env) (myLat myLon : ℝ)
    (ledMode : Mode) : Mode :=
  if env.wifiConnected then
    if env.httpCode = 200 then
      match env.parsed with
      | some (issLat, issLon) =>
          classify (haversine myLat myLon issLat issLon)
      | none => ledMode
    else ledMode
  else ledMode

/-- State owned by `updateLEDs`: the three GPIO outputs (`true` = HIGH)
together with the globals `currentLEDState` and `lastLEDUpdate`. -/
structure LEDState where
  red : Bool
  green : Bool
  blue : Bool
  currentLEDState : Bool
  lastLEDUpdate : Nat
deriving DecidableEq, Repr

/-- One call of `updateLEDs` of the sketch at time `currentMillis`.
Mode `off` and `far` write all three pins; `approaching` and `near`
write the two non-blinking pins low and toggle the blinking pin at most
once when `currentMillis - lastLEDUpdate` (unsigned) reaches the blink
interval, storing `currentMillis` back into `lastLEDUpdate`. -/
def updateLEDs (ledMode : Mode) (currentMillis : Nat) (st : LEDState) :
    LEDState :=
  match ledMode with
  | Mode.off => { st with red := false, green := false, blue := false }
  | Mode.far => { st with red := true, green := false, blue := false }
  | Mode.approaching =>
      let st1 := { st with red := false, green := false }
      if BLINK_MEDIUM ≤ usub32 currentMillis st1.lastLEDUpdate then
        let s := ! st1.currentLEDState
        { st1 with lastLEDUpdate := currentMillis % UINT32_MOD,
                   currentLEDState := s, blue := s }
      else st1
  | Mode.near =>
      let st1 := { st with red := false, blue := false }
      if BLINK_FAST ≤ usub32 currentMillis st1.lastLEDUpdate then
        let s := ! st1.currentLEDState
        { st1 with lastLEDUpdate := currentMillis % UINT32_MOD,
                   currentLEDState := s, green := s }
      else st1

/-- Mutable globals of the sketch touched by `loop`: the two deadline
registers, the `ledMode` register and the LED state. -/
structure SysState where
  lastWiFiCheck : Nat
  lastISSCheck : Nat
  ledMode : Mode
  leds : LEDState
deriving Repr

/-- State right after `setup()`: all globals are zero-initialised, all
LEDs written LOW, `ledMode = 0` (off). -/
def initState : SysState :=
  { lastWiFiCheck := 0
    lastISSCheck := 0
    ledMode := Mode.off
    leds := { red := false, green := false, blue := false,
              currentLEDState := false, lastLEDUpdate := 0 } }

/-- One iteration of `loop()` of the sketch at time `currentMillis`:
run the WiFi check when its deadline has elapsed (its network side
effects are external), run `checkISSPosition` when its deadline has
elapsed, then call `updateLEDs`. -/
noncomputable def loopIter (env : Env) (myLat myLon : ℝ)
    (currentMillis : Nat) (st : SysState) : SysState :=
  let st1 :=
    if WIFI_CHECK_INTERVAL ≤ usub32 currentMillis st.lastWiFiCheck then
      { st with lastWiFiCheck := currentMillis % UINT32_MOD }
    else st
  let st2 :=
    if CHECK_ISS_INTERVAL ≤ usub32 currentMillis st1.lastISSCheck then
      { st1 with lastISSCheck := currentMillis % UINT32_MOD,
                 ledMode := checkISSPosition env myLat myLon st1.ledMode }
    else st1
  { st2 with leds := updateLEDs st2.ledMode currentMillis st2.leds }

/-- Ordering of the three active modes used by the monotonicity claim:
`near < approaching < far`; `off` is never produced by the classifier
and is ranked above all of them. -/
def modeRank : Mode → Nat
  | Mode.near => 0
  | Mode.approaching => 1
  | Mode.far => 2
  | Mode.off => 3

/-- Helper: after a toggle stores `now % 2^32` into `lastLEDUpdate`, the
unsigned elapsed time against the same `now` is zero. -/
theorem usub32_self_mod (a : Nat) : usub32 a (a % UINT32_MOD) = 0 := by
  unfold usub32 UINT32_MOD
  omega

/-- C3: the classifier yields `near` when `d ≤ 500`, `approaching` when
`500 < d ≤ 1000`, and `far` when `1000 < d`; both comparisons are
inclusive, so a distance exactly at a threshold falls in the nearer band. -/
theorem classify_bands (d : ℝ) :
    (d ≤ VISIBLE_RADIUS → classify d = Mode.near) ∧
    (VISIBLE_RADIUS < d → d ≤ SLIGHTLY_FAR_RADIUS →
      classify d = Mode.approaching) ∧
    (SLIGHTLY_FAR_RADIUS < d → classify d = Mode.far) := by
  unfold classify VISIBLE_RADIUS SLIGHTLY_FAR_RADIUS
  refine ⟨fun h1 => if_pos h1, fun h1 h2 => ?_, fun h1 => ?_⟩
  · rw [if_neg (not_le.mpr h1), if_pos h2]
  · rw [if_neg (by push_neg; linarith), if_neg (not_le.mpr h1)]

/-- Witness for C3: the two exact threshold distances land in the nearer
bands. -/
theorem classify_bands_w :
    classify 500 = Mode.near ∧ classify 1000 = Mode.approaching :=
  ⟨(classify_bands 500).1 (by norm_num [VISIBLE_RADIUS]),
   (classify_bands 1000).2.1 (by norm_num [VISIBLE_RADIUS])
     (by norm_num [SLIGHTLY_FAR_RADIUS])⟩

/-- C4: the classifier is monotone in distance under the order
`near < approaching < far`. -/
theorem classify_monotone (d1 d2 : ℝ) (h : d1 < d2) :
    modeRank (classify d1) ≤ modeRank (classify d2) := by
  unfold classify VISIBLE_RADIUS SLIGHTLY_FAR_RADIUS
  split_ifs <;> simp [modeRank] <;> linarith

/-- Witness for C4 at the concrete pair of distances 100 km and 2000 km. -/
theorem classify_monotone_w :
    modeRank (classify 100) ≤ modeRank (classify 2000) :=
  classify_monotone 100 2000 (by norm_num)

/-- C5: after any `updateLEDs` call, the outputs respect mode
exclusivity: `near` keeps red and blue low, `approaching` keeps red and
green low, `far` keeps green and blue low with red high, `off` keeps all
three low — for every tick time and blink-phase state. -/
theorem lamp_exclusivity (m : Mode) (now : Nat) (st : LEDState) :
    (m = Mode.near → (updateLEDs m now st).red = false ∧
      (updateLEDs m now st).blue = false) ∧
    (m = Mode.approaching → (updateLEDs m now st).red = false ∧
      (updateLEDs m now st).green = false) ∧
    (m = Mode.far → (updateLEDs m now st).green = false ∧
      (updateLEDs m now st).blue = false ∧
      (updateLEDs m now st).red = true) ∧
    (m = Mode.off → (updateLEDs m now st).red = false ∧
      (updateLEDs m now st).green = false ∧
      (updateLEDs m now st).blue = false) := by
  cases m <;> simp [updateLEDs] <;> split <;> simp

/-- Witness for C5 in mode `near` at time 0 from the boot LED state. -/
theorem lamp_exclusivity_w :
    (updateLEDs Mode.near 0 initState.leds).red = false ∧
    (updateLEDs Mode.near 0 initState.leds).blue = false :=
  (lamp_exclusivity Mode.near 0 initState.leds).1 rfl

/-- C7: the lamp driver is idempotent in time: a second `updateLEDs`
call with the same `now` leaves outputs and blink phase exactly as after
the first call (the blink intervals 200 and 500 are positive). -/
theorem tick_idempotent (m : Mode) (now : Nat) (st : LEDState) :
    updateLEDs m now (updateLEDs m now st) = updateLEDs m now st := by
  cases st
  cases m <;>
    simp only [updateLEDs] <;>
    split <;>
    simp [usub32_self_mod, BLINK_FAST, BLINK_MEDIUM]

/-- C9: a single `updateLEDs` call toggles the blink phase at most once,
however much time has elapsed: either phase and `lastLEDUpdate` are both
unchanged, or the phase flips exactly once and `lastLEDUpdate` is reset
to `now` (mod 2^32). -/
theorem tick_single_toggle (m : Mode) (now : Nat) (st : LEDState) :
    ((updateLEDs m now st).currentLEDState = st.currentLEDState ∧
     (updateLEDs m now st).lastLEDUpdate = st.lastLEDUpdate) ∨
    ((updateLEDs m now st).currentLEDState = (! st.currentLEDState) ∧
     (updateLEDs m now st).lastLEDUpdate = now % UINT32_MOD) := by
  cases m <;> simp [updateLEDs] <;> split <;> simp

/-- Helper: on any sampler error, `checkISSPosition` returns its input
mode unchanged. -/
theorem checkISS_error_fix (env : Env) (myLat myLon : ℝ) (m : Mode)
    (herr : env.wifiConnected = false ∨ env.httpCode ≠ 200 ∨
      env.parsed = none) :
    checkISSPosition env myLat myLon m = m := by
  rcases herr with h | h | h <;>
    cases hp : env.parsed <;>
      simp [checkISSPosition, h, hp]

/-- C6: when the sampler errors (no link, non-200 HTTP status, or JSON
parse failure), a whole `loop` iteration leaves the `ledMode` register
unchanged. -/
theorem mode_persist_on_error (env : Env) (myLat myLon : ℝ) (now : Nat)
    (st : SysState)
    (herr : env.wifiConnected = false ∨ env.httpCode ≠ 200 ∨
      env.parsed = none) :
    (loopIter env myLat myLon now st).ledMode = st.ledMode := by
  simp only [loopIter]
  split <;> split <;>
    simp [checkISS_error_fix env myLat myLon _ herr]

/-- Witness for C6: with WiFi down at boot, the first iteration keeps
the mode at `off`. -/
theorem mode_persist_on_error_w :
    (loopIter ⟨false, 200, none⟩ 0 0 0 initState).ledMode = Mode.off :=
  (mode_persist_on_error ⟨false, 200, none⟩ 0 0 0 initState
    (Or.inl rfl)).trans rfl

/-- Helper: the unsigned deadline subtraction recovers the true elapsed
time `e` across counter wraparound, as long as `e < 2^32`. -/
theorem usub32_elapsed (last e : Nat) (h1 : last < UINT32_MOD)
    (h2 : e < UINT32_MOD) :
    usub32 ((last + e) % UINT32_MOD) last = e := by
  unfold usub32 UINT32_MOD at *
  omega

/-- C8: deadline checks in `loop` use unsigned mod-2^32 subtraction, so
after any true elapsed time `e` at least the period (and below 2^32),
each periodic task fires even when the millisecond counter wrapped
around in between — its deadline register is reset to the new `now`. -/
theorem no_stall_at_wraparound (env : Env) (myLat myLon : ℝ)
    (st : SysState) (last e : Nat)
    (hw : st.lastWiFiCheck = last) (hi : st.lastISSCheck = last)
    (hlast : last < UINT32_MOD) (he : e < UINT32_MOD) :
    (WIFI_CHECK_INTERVAL ≤ e →
      (loopIter env myLat myLon ((last + e) % UINT32_MOD) st).lastWiFiCheck =
        (last + e) % UINT32_MOD) ∧
    (CHECK_ISS_INTERVAL ≤ e →
      (loopIter env myLat myLon ((last + e) % UINT32_MOD) st).lastISSCheck =
        (last + e) % UINT32_MOD) := by
  have hu : usub32 ((last + e) % UINT32_MOD) last = e :=
    usub32_elapsed last e hlast he
  have hmm : ((last + e) % UINT32_MOD) % UINT32_MOD =
      (last + e) % UINT32_MOD := Nat.mod_mod_of_dvd _ dvd_rfl
  constructor <;> intro hp
  · simp only [loopIter, hw, hi, hu, if_pos hp]
    split <;> simp [hmm]
  · have hp5 : WIFI_CHECK_INTERVAL ≤ e := by
      unfold WIFI_CHECK_INTERVAL CHECK_ISS_INTERVAL at *
      omega
    simp only [loopIter, hw, hi, hu, if_pos hp, if_pos hp5]
    simp [hmm, hi, hu, hp]

/-- Witness for C8: the spec scenario where the deadline registers hold
`2^32 − 1000` and 30500 ms elapse, carrying the counter through the
wrap; the ISS task fires at the new `now`. -/
theorem no_stall_at_wraparound_w :
    (loopIter ⟨false, 0, none⟩ 0 0 ((4294966296 + 30500) % UINT32_MOD)
        { lastWiFiCheck := 4294966296, lastISSCheck := 4294966296,
          ledMode := Mode.off, leds := initState.leds }).lastISSCheck =
      (4294966296 + 30500) % UINT32_MOD :=
  (no_stall_at_wraparound ⟨false, 0, none⟩ 0 0 _ 4294966296 30500 rfl rfl
    (by norm_num [UINT32_MOD]) (by norm_num [UINT32_MOD])).2
    (by norm_num [CHECK_ISS_INTERVAL])

/-- Helper: the classifier never returns `off`. -/
theorem classify_ne_off (d : ℝ) : classify d ≠ Mode.off := by
  unfold classify
  split_ifs <;> simp

/-- Helper: `checkISSPosition` never turns a non-`off` mode back to
`off`. -/
theorem checkISS_ne_off (env : Env) (myLat myLon : ℝ) (m : Mode)
    (h : m ≠ Mode.off) :
    checkISSPosition env myLat myLon m ≠ Mode.off := by
  unfold checkISSPosition
  cases hp : env.parsed <;>
    split_ifs <;> simp [h, classify_ne_off]

/-- C10: the mode register starts at `off`, the classifier only produces
modes in `{far, approaching, near}`, and a `loop` iteration never takes
a non-`off` mode back to `off`. -/
theorem off_not_reentered :
    initState.ledMode = Mode.off ∧
    (∀ d : ℝ, classify d ≠ Mode.off) ∧
    (∀ (env : Env) (myLat myLon : ℝ) (now : Nat) (st : SysState),
      st.ledMode ≠ Mode.off →
      (loopIter env myLat myLon now st).ledMode ≠ Mode.off) := by
  refine ⟨rfl, classify_ne_off, ?_⟩
  intro env myLat myLon now st h
  simp only [loopIter]
  split <;> split <;> simp [checkISS_ne_off env myLat myLon _ h, h]

/-- Witness for C10: a state in mode `near` cannot fall back to `off`
through an error iteration. -/
theorem off_not_reentered_w :
    (loopIter ⟨false, 0, none⟩ 0 0 0
        { lastWiFiCheck := 0, lastISSCheck := 0, ledMode := Mode.near,
          leds := initState.leds }).ledMode ≠ Mode.off :=
  off_not_reentered.2.2 ⟨false, 0, none⟩ 0 0 0 _ (by decide)

/-- C1: the longitude delta computed by `haversine` is NOT
`deg2rad (lon2 - lon1)`: the source line `dLon = deg2rad(lat2 - lon1)`
mixes a latitude with a longitude.  At `(lat1, lon1) = (0, 0)` and
`(lat2, lon2) = (10, 20)` the code produces `deg2rad 10` where the
specified formula gives `deg2rad 20`. -/
theorem dLon_mixes_lat_and_lon :
    hav_dLon 0 0 10 20 = deg2rad (10 - 0) ∧
    hav_dLon 0 0 10 20 ≠ deg2rad (20 - 0) := by
  refine ⟨rfl, fun h => ?_⟩
  unfold hav_dLon deg2rad at h
  have hne : Real.pi / 180 ≠ 0 := by positivity
  have h2 := mul_right_cancel₀ hne h
  norm_num at h2

/-- Helper: with the defective `dLon`, the distance from `(0, 0)` to
`(0, 180)` evaluates to 0 km. -/
theorem haversine_fwd_zero : haversine 0 0 0 180 = 0 := by
  have h1 : hav_dLon 0 0 0 180 / 2 = 0 := by
    unfold hav_dLon deg2rad; ring
  have h2 : deg2rad ((0:ℝ) - 0) / 2 = 0 := by
    unfold deg2rad; ring
  simp only [haversine, h1, h2]
  norm_num [Real.sin_zero, Real.sqrt_zero, Real.sqrt_one, atan2,
    Real.arctan_zero]

/-- Helper: with the defective `dLon`, the distance from `(0, 180)` to
`(0, 0)` evaluates to `6371 π` km (about 20015 km). -/
theorem haversine_rev_value : haversine 0 180 0 0 = 6371 * Real.pi := by
  have hsinL : Real.sin (hav_dLon 0 180 0 0 / 2) = -1 := by
    have harg : hav_dLon 0 180 0 0 / 2 = -(Real.pi / 2) := by
      unfold hav_dLon deg2rad; ring
    rw [harg, Real.sin_neg, Real.sin_pi_div_two]
  have h2 : deg2rad ((0:ℝ) - 0) / 2 = 0 := by
    unfold deg2rad; ring
  have hcos : Real.cos (deg2rad 0) = 1 := by
    unfold deg2rad; norm_num
  simp only [haversine, hsinL, h2, hcos]
  norm_num [Real.sin_zero, Real.sqrt_one, Real.sqrt_zero, atan2]
  ring

/-- C2: the distance function of the sketch is not symmetric: swapping
`(0, 0)` and `(0, 180)` changes the result from `6371 π` km to 0 km,
far beyond the 1 m tolerance.  The defective `dLon` is the cause. -/
theorem haversine_not_symmetric :
    0.001 < |haversine 0 180 0 0 - haversine 0 0 0 180| := by
  rw [haversine_rev_value, haversine_fwd_zero, sub_zero,
    abs_of_pos (by positivity)]
  nlinarith [Real.pi_gt_three]
